import Mathlib

/-!
Verification development for the telegram_agno repository.

The definitions below are a shallow embedding of the credit ledger
(src/tools/database.py, SQL functions consume_freemium_credits,
reset_monthly_credits, check_expired_premium), the in-memory session cache
(src/tools/session_manager.py), the request orchestration helpers of
src/api.py, and the reminder due-date parser
(src/agents/reminder_agent.py, method _parse_due_date).

Modelling conventions:
* SQL INTEGER and Python int are modelled by Int; calendar dates and
  instants are modelled by Int day numbers / abstract Int instants where
  only comparisons and fixed offsets matter, and by an explicit civil
  calendar where real date arithmetic matters (the reminder parser).
* A database table is a List of row records; SELECT ... WHERE id = x is
  List.find?, UPDATE ... WHERE id = x is List.map with a conditional.
* A Python dict keyed by strings (the session store) is a function
  String -> Option entry.
* Fallible operations return Option / Except; an uncaught Python
  exception is an Except.error.
-/

/-- A row of the user_settings table (src/tools/database.py lines 134-149).
The audit timestamp columns (last_bot_interaction, created_at, updated_at)
carry no decision-relevant data and are omitted.  The schema constraint
CHECK (freemium_credits >= 0) appears as a hypothesis where it matters. -/
structure UserSettings where
  userId : String
  name : Option String
  currency : String
  language : String
  timezone : String
  isPremium : Bool
  telegramId : Option String
  premiumUntil : Option Int
  freemiumCredits : Int
  creditsResetDate : Int
deriving DecidableEq

/-- The typed error field of the jsonb object returned by
consume_freemium_credits. -/
inductive ConsumeError where
  | userNotFound
  | insufficientCredits
deriving DecidableEq

/-- The jsonb object returned by consume_freemium_credits
(src/tools/database.py lines 396-467).  Each branch of the SQL function
builds an object with a different key set; absent keys are none. -/
structure ConsumeResult where
  success : Bool
  error : Option ConsumeError
  isPremium : Option Bool
  creditsUsed : Option Int
  creditsRemaining : Option Int
  creditsAvailable : Option Int
  creditsNeeded : Option Int
deriving DecidableEq

/-- Branch IF NOT FOUND of consume_freemium_credits. -/
def userNotFoundResult : ConsumeResult :=
  ⟨false, some .userNotFound, none, none, none, none, none⟩

/-- Branch IF is_premium_user of consume_freemium_credits: unlimited
usage, credits_remaining is the -1 sentinel. -/
def premiumBypassResult : ConsumeResult :=
  ⟨true, none, some true, some 0, some (-1), none, none⟩

/-- Branch IF current_credits < p_credits_needed of
consume_freemium_credits. -/
def insufficientCreditsResult (creditsAvailable creditsNeeded : Int) : ConsumeResult :=
  ⟨false, some .insufficientCredits, none, none, none,
    some creditsAvailable, some creditsNeeded⟩

/-- Final branch of consume_freemium_credits: credits consumed. -/
def consumedResult (creditsUsed creditsRemaining : Int) : ConsumeResult :=
  ⟨true, none, some false, some creditsUsed, some creditsRemaining, none, none⟩

/-- SQL function consume_freemium_credits(p_user_id, p_operation_type,
p_credits_needed, p_activity_data) from src/tools/database.py lines
396-467, called through SupabaseClient.consume_credits
(src/tools/supabase_tools.py lines 594-601).  It SELECTs the row of the
user, returns user_not_found when absent, grants the unconditional bypass
when is_premium is set, rejects when current_credits < p_credits_needed,
and otherwise UPDATEs the row to current_credits - p_credits_needed.
The p_operation_type argument is only logged and decides nothing. -/
def consume_freemium_credits (store : List UserSettings) (uid : String)
    (opType : String) (creditsNeeded : Int) : ConsumeResult × List UserSettings :=
  match store.find? (fun u => u.userId == uid) with
  | none => (userNotFoundResult, store)
  | some u =>
    if u.isPremium then
      (premiumBypassResult, store)
    else if u.freemiumCredits < creditsNeeded then
      (insufficientCreditsResult u.freemiumCredits creditsNeeded, store)
    else
      (consumedResult creditsNeeded (u.freemiumCredits - creditsNeeded),
       store.map fun v =>
         if v.userId == uid then
           { v with freemiumCredits := u.freemiumCredits - creditsNeeded }
         else v)

/-- SQL function check_expired_premium (src/tools/database.py lines
352-367): clears is_premium on every row whose premium_until is set and
strictly in the past.  It is a separate maintenance function; nothing in
the request path invokes it before consume_freemium_credits. -/
def check_expired_premium (store : List UserSettings) (now : Int) : List UserSettings :=
  store.map fun u =>
    if u.isPremium && (match u.premiumUntil with
        | some t => decide (t < now)
        | none => false) then
      { u with isPremium := false }
    else u

/-- Modelled from the spec (section 3 Identity): premium is active iff
is_premium and premium_until is null (lifetime) or premium_until > now.
This definition follows the wording of the spec, for comparison with the
behaviour of consume_freemium_credits, which tests only the is_premium
flag. -/
def premiumActiveSpec (u : UserSettings) (now : Int) : Bool :=
  u.isPremium && (match u.premiumUntil with
    | none => true
    | some t => now < t)

/-- The schema default of the freemium_credits column:
freemium_credits INTEGER DEFAULT 50 (src/tools/database.py line 144).
This is the allotment a newly created identity receives. -/
def defaultFreemiumCredits : Int := 50

/-- SQL function reset_monthly_credits (src/tools/database.py lines
370-393): UPDATE user_settings SET freemium_credits = 20,
credits_reset_date = CURRENT_DATE + 30 days WHERE is_premium = FALSE AND
credits_reset_date < CURRENT_DATE.  Dates are day numbers. -/
def reset_monthly_credits (store : List UserSettings) (currentDate : Int) :
    List UserSettings :=
  store.map fun u =>
    if u.isPremium = false ∧ u.creditsResetDate < currentDate then
      { u with freemiumCredits := 20, creditsResetDate := currentDate + 30 }
    else u

/-- The flat user-data dictionary passed around by src/api.py and
src/tools/supabase_tools.py.  Each optional key is an Option field; a key
holding the empty string is present but falsy, matching Python
truthiness. -/
structure UserData where
  userId : Option String
  email : Option String
  name : Option String
  firstName : Option String
  lastName : Option String
  currency : Option String
  language : Option String
  timezone : Option String
  isPremium : Bool
  premiumUntil : Option Int
  freemiumCredits : Option Int
  telegramId : Option String
  authenticated : Bool
deriving DecidableEq

/-- Python truthiness of an optional string: absent and empty are falsy. -/
def truthyStr (o : Option String) : Bool :=
  match o with
  | none => false
  | some s => !(s == "")

/-- One value of the sessions dict of SessionManager: the stored user-data
dictionary together with its last_activity key
(src/tools/session_manager.py lines 15-21). -/
structure SessionEntry where
  data : UserData
  lastActivity : Int
deriving DecidableEq

/-- SessionManager (src/tools/session_manager.py): the in-memory dict
from telegram_id to session entry plus the configured timeout.  Times are
Int minutes. -/
structure SessionManager where
  sessions : String → Option SessionEntry
  sessionTimeout : Int

/-- SessionManager.create_session (src/tools/session_manager.py lines
15-21): unconditionally overwrites the entry, setting last_activity to
now and the authenticated key to True last, so it wins over any
authenticated value inside the supplied user_data. -/
def create_session (m : SessionManager) (tid : String) (d : UserData)
    (now : Int) : SessionManager :=
  { m with sessions := fun t =>
      if t = tid then some ⟨{ d with authenticated := true }, now⟩
      else m.sessions t }

/-- SessionManager.get_session (src/tools/session_manager.py lines
23-36): absent entries give None; an entry with
now - last_activity > timeout is popped and None is returned (lazy
eviction, no sweep needed); otherwise last_activity is refreshed to now
and the entry is returned. -/
def get_session (m : SessionManager) (tid : String) (now : Int) :
    Option SessionEntry × SessionManager :=
  match m.sessions tid with
  | none => (none, m)
  | some e =>
    if m.sessionTimeout < now - e.lastActivity then
      (none, { m with sessions := fun t => if t = tid then none else m.sessions t })
    else
      (some ⟨e.data, now⟩,
       { m with sessions := fun t =>
           if t = tid then some ⟨e.data, now⟩ else m.sessions t })

/-- SessionManager.is_authenticated (src/tools/session_manager.py lines
38-41): the entry exists (after the expiry check of get_session) and its
authenticated key is truthy. -/
def is_authenticated (m : SessionManager) (tid : String) (now : Int) :
    Bool × SessionManager :=
  match get_session m tid now with
  | (some e, m1) => (e.data.authenticated, m1)
  | (none, m1) => (false, m1)

/-- SessionManager.invalidate_session (src/tools/session_manager.py lines
43-45). -/
def invalidate_session (m : SessionManager) (tid : String) : SessionManager :=
  { m with sessions := fun t => if t = tid then none else m.sessions t }

/-- Invariant: every entry stored in the cache has a true authenticated
flag. -/
def AllAuthenticated (m : SessionManager) : Prop :=
  ∀ t e, m.sessions t = some e → e.data.authenticated = true

/-- A civil calendar date (Python datetime.date). -/
structure PyDate where
  year : Nat
  month : Nat
  day : Nat
deriving DecidableEq

/-- A Python datetime.  tzOffsetMinutes is none for a naive value and
some o for an aware value with a fixed utcoffset of o minutes. -/
structure PyDateTime where
  year : Nat
  month : Nat
  day : Nat
  hour : Nat
  minute : Nat
  second : Nat
  tzOffsetMinutes : Option Int
deriving DecidableEq

/-- Gregorian leap-year rule. -/
def isLeapYear (y : Nat) : Bool :=
  (y % 4 == 0 && y % 100 != 0) || y % 400 == 0

/-- Length of a month in the proleptic Gregorian calendar. -/
def daysInMonth (y m : Nat) : Nat :=
  if m = 2 then (if isLeapYear y then 29 else 28)
  else if m = 4 ∨ m = 6 ∨ m = 9 ∨ m = 11 then 30
  else 31

/-- Day number of a civil date, counted from 0000-03-01 (the standard
era-based civil calendar algorithm, restricted to Nat since every date in
scope is in the common era). -/
def daysFromCivil (d : PyDate) : Nat :=
  let y := if d.month ≤ 2 then d.year - 1 else d.year
  let era := y / 400
  let yoe := y % 400
  let mp := (d.month + 9) % 12
  let doy := (153 * mp + 2) / 5 + d.day - 1
  let doe := yoe * 365 + yoe / 4 - yoe / 100 + doy
  era * 146097 + doe

/-- Civil date of a day number; inverse of daysFromCivil. -/
def civilFromDays (z : Nat) : PyDate :=
  let era := z / 146097
  let doe := z % 146097
  let yoe := (doe - doe / 1460 + doe / 36524 - doe / 146096) / 365
  let y := yoe + era * 400
  let doy := doe - (365 * yoe + yoe / 4 - yoe / 100)
  let mp := (5 * doy + 2) / 153
  let d := doy - (153 * mp + 2) / 5 + 1
  let m := if mp < 10 then mp + 3 else mp - 9
  ⟨if m ≤ 2 then y + 1 else y, m, d⟩

/-- Python date + timedelta(days = n) for a whole, non-negative number of
days. -/
def addDays (d : PyDate) (n : Nat) : PyDate :=
  civilFromDays (daysFromCivil d + n)

/-- Python datetime.date() on a datetime value. -/
def dateOf (dt : PyDateTime) : PyDate :=
  ⟨dt.year, dt.month, dt.day⟩

/-- Python datetime.combine(base_date, datetime.min.time().replace(hour,
minute)): a naive datetime on the given date. -/
def combineAt (d : PyDate) (h mi : Nat) : PyDateTime :=
  ⟨d.year, d.month, d.day, h, mi, 0, none⟩

/-- Value of an ASCII digit character, none for any other character. -/
def digitN (c : Char) : Option Nat :=
  if '0' ≤ c ∧ c ≤ '9' then some (c.toNat - '0'.toNat) else none

/-- Read exactly two digits. -/
def read2 : List Char → Option (Nat × List Char)
  | a :: b :: rest =>
    match digitN a, digitN b with
    | some x, some y => some (10 * x + y, rest)
    | _, _ => none
  | _ => none

/-- Read exactly four digits. -/
def read4 : List Char → Option (Nat × List Char)
  | a :: b :: c :: d :: rest =>
    match digitN a, digitN b, digitN c, digitN d with
    | some x, some y, some z, some w => some (1000 * x + 100 * y + 10 * z + w, rest)
    | _, _, _, _ => none
  | _ => none

/-- Trailing UTC-offset part of an ISO-8601 string: empty (naive value)
or sign HH:MM with nothing after it. -/
def finishOffset (y mo d h mi s : Nat) : List Char → Option PyDateTime
  | [] => some ⟨y, mo, d, h, mi, s, none⟩
  | sign :: r1 =>
    if sign = '+' ∨ sign = '-' then
      match read2 r1 with
      | some (oh, ':' :: r2) =>
        match read2 r2 with
        | some (om, []) =>
          if oh ≤ 23 ∧ om ≤ 59 then
            some ⟨y, mo, d, h, mi, s,
              some (if sign = '-' then -((oh * 60 + om : Nat) : Int)
                    else ((oh * 60 + om : Nat) : Int))⟩
          else none
        | _ => none
      | _ => none
    else none

/-- Optional seconds field and offset after the minutes of the time part. -/
def finishSeconds (y mo d h mi : Nat) : List Char → Option PyDateTime
  | ':' :: r =>
    match read2 r with
    | some (s, r1) => if s ≤ 59 then finishOffset y mo d h mi s r1 else none
    | none => none
  | r => finishOffset y mo d h mi 0 r

/-- Optional minutes field after the hours of the time part. -/
def finishMinutes (y mo d h : Nat) : List Char → Option PyDateTime
  | ':' :: r =>
    match read2 r with
    | some (mi, r1) => if mi ≤ 59 then finishSeconds y mo d h mi r1 else none
    | none => none
  | r => finishOffset y mo d h 0 0 r

/-- Model of CPython datetime.fromisoformat on the grammar
YYYY-MM-DD[(sep)HH[:MM[:SS]]][(+|-)HH:MM]: the separator is any single
character, components are range-checked, and any malformed input yields
none (the ValueError that _parse_due_date catches and ignores).
Fractional seconds, which never occur in this request path, are not
modelled. -/
def fromisoformat (cs : List Char) : Option PyDateTime :=
  match read4 cs with
  | some (y, '-' :: r1) =>
    match read2 r1 with
    | some (mo, '-' :: r2) =>
      match read2 r2 with
      | some (d, r3) =>
        if 1 ≤ mo ∧ mo ≤ 12 ∧ 1 ≤ d ∧ d ≤ daysInMonth y mo then
          match r3 with
          | [] => some ⟨y, mo, d, 0, 0, 0, none⟩
          | _sep :: r4 =>
            match read2 r4 with
            | some (h, r5) => if h ≤ 23 then finishMinutes y mo d h r5 else none
            | none => none
        else none
      | _ => none
    | _ => none
  | _ => none

/-- Python str.replace applied to the single character Z and the
replacement +00:00, every occurrence. -/
def replaceZ : List Char → List Char
  | [] => []
  | c :: cs =>
    if c = 'Z' then '+' :: '0' :: '0' :: ':' :: '0' :: '0' :: replaceZ cs
    else c :: replaceZ cs

/-- Python str whitespace test (ASCII part of str.strip and regex
whitespace). -/
def isPySpace (c : Char) : Bool :=
  c = ' ' || c = '\t' || c = '\n' || c = '\r' || c = '\x0b' || c = '\x0c'

/-- Python str.strip: drop leading whitespace. -/
def stripLeft : List Char → List Char
  | [] => []
  | c :: cs => if isPySpace c then stripLeft cs else c :: cs

/-- Python str.strip on a character list. -/
def stripEnds (cs : List Char) : List Char :=
  (stripLeft (stripLeft cs).reverse).reverse

/-- Whether the first list starts the second one. -/
def startsWithL : List Char → List Char → Bool
  | [], _ => true
  | _ :: _, [] => false
  | a :: as, b :: bs => a == b && startsWithL as bs

/-- Python substring containment (the in operator on str). -/
def containsSub (needle : List Char) : List Char → Bool
  | [] => startsWithL needle []
  | c :: cs => startsWithL needle (c :: cs) || containsSub needle cs

/-- The am/pm alternation of the time regex, tried in order am then pm;
trailing characters are allowed since the pattern is unanchored. -/
def matchAmPm : List Char → Option String
  | 'a' :: 'm' :: _ => some "am"
  | 'p' :: 'm' :: _ => some "pm"
  | _ => none

/-- Greedy whitespace skip, the (backslash s)* part of the time regex. -/
def skipSpaces : List Char → List Char
  | [] => []
  | c :: cs => if isPySpace c then skipSpaces cs else c :: cs

/-- After the hour digits of the time regex: the optional (:MM) group
(greedy, with backtracking to the group-absent alternative), whitespace,
then am/pm.  Returns (hour, minute, am-or-pm). -/
def matchTimeTail (h : Nat) (rest : List Char) : Option (Nat × Nat × String) :=
  let withMinutes :=
    match rest with
    | ':' :: d1 :: d2 :: rs =>
      match digitN d1, digitN d2 with
      | some x, some y =>
        match matchAmPm (skipSpaces rs) with
        | some ap => some (h, 10 * x + y, ap)
        | none => none
      | _, _ => none
    | _ => none
  match withMinutes with
  | some r => some r
  | none =>
    match matchAmPm (skipSpaces rest) with
    | some ap => some (h, 0, ap)
    | none => none

/-- Attempt of the time regex at one start position: one or two hour
digits (greedy, backtracking from two to one), then matchTimeTail. -/
def matchTimeAt : List Char → Option (Nat × Nat × String)
  | [] => none
  | c1 :: rest =>
    match digitN c1 with
    | none => none
    | some x =>
      match rest with
      | c2 :: rest2 =>
        match digitN c2 with
        | some y =>
          (match matchTimeTail (10 * x + y) rest2 with
           | some r => some r
           | none => matchTimeTail x rest)
        | none => matchTimeTail x rest
      | [] => matchTimeTail x []

/-- re.search over the whole string for the pattern
(one or two digits)(optional colon and two digits)(whitespace)(am or pm),
scanning start positions left to right
(src/agents/reminder_agent.py line 222). -/
def searchTime : List Char → Option (Nat × Nat × String)
  | [] => none
  | c :: cs =>
    match matchTimeAt (c :: cs) with
    | some r => some r
    | none => searchTime cs

/-- The 12-hour-clock adjustment of src/agents/reminder_agent.py lines
228-231. -/
def adjustHour (h : Nat) (ap : String) : Nat :=
  if ap = "pm" ∧ h ≠ 12 then h + 12
  else if ap = "am" ∧ h = 12 then 0
  else h

/-- ReminderAgent._parse_due_date (src/agents/reminder_agent.py lines
194-236).  The now argument models the value of datetime.now() — the
naive server-local clock; the source function takes no timezone and no
reference-instant parameter.  Behaviour: empty input gives none; a string
accepted by fromisoformat (after replacing Z by +00:00) is returned as
parsed; otherwise the lowered, stripped text is scanned for the relative
keywords today / tomorrow / next week / next month (anchored at now, in
that order, defaulting to the date of now), an optional 12-hour clock
time is extracted (defaulting to 09:00), and a naive datetime is
returned.  A clock value that overflows datetime.time raises ValueError,
modelled as Except.error. -/
def parse_due_date (dateStr : String) (now : PyDateTime) :
    Except Unit (Option PyDateTime) :=
  if dateStr = "" then .ok none
  else
    match fromisoformat (replaceZ dateStr.toList) with
    | some dt => .ok (some dt)
    | none =>
      let s := stripEnds (dateStr.toList.map Char.toLower)
      let base : PyDate :=
        if containsSub "today".toList s then dateOf now
        else if containsSub "tomorrow".toList s then addDays (dateOf now) 1
        else if containsSub "next week".toList s then addDays (dateOf now) 7
        else if containsSub "next month".toList s then addDays (dateOf now) 30
        else dateOf now
      match searchTime s with
      | some (h0, mi, ap) =>
        let h := adjustHour h0 ap
        if h ≤ 23 ∧ mi ≤ 59 then .ok (some (combineAt base h mi))
        else .error ()
      | none => .ok (some (combineAt base 9 0))

/-- A record of the Supabase Auth backing store (the auth.users table
reached through supabase.auth.admin), with the user_metadata keys the
request path reads.  A none metadata key models key absence in the
metadata dict. -/
structure AuthUser where
  userId : String
  email : Option String
  metaName : Option String
  metaFirstName : Option String
  metaLastName : Option String
deriving DecidableEq

/-- The user-facing message templates of src/messages.py that the
modelled request path selects between; the template text itself decides
nothing. -/
inductive ApiMsg where
  | userNotRegistered
  | notAuthenticated
  | authCheckFailed
  | authFailedDefault
deriving DecidableEq

/-- The dict returned by check_authentication (src/api.py lines 615-691):
keys success, authenticated, user_data, must_register (absent arms give
false) and message. -/
structure AuthResult where
  success : Bool
  authenticated : Bool
  userData : Option UserData
  mustRegister : Bool
  message : Option ApiMsg
deriving DecidableEq

/-- Observable steps of one request, in execution order: successful
identity resolution, the call into consume_freemium_credits and its
outcome, an Extractor (LLM agent) invocation, and a persistence write. -/
inductive ApiEvent where
  | resolveSucceeded
  | creditConsumeAttempt (userId : String) (creditsNeeded : Int)
  | creditConsumeSucceeded
  | creditConsumeFailed
  | extractorCall
  | persistWrite
deriving DecidableEq

/-- The state a request runs against: the user_settings table, the
Supabase Auth store, the in-process session cache, and a count of
persisted transaction/reminder records. -/
structure World where
  settings : List UserSettings
  authUsers : List AuthUser
  sessions : SessionManager
  persistCount : Nat

/-- SupabaseClient.get_user_by_telegram_id_auth
(src/tools/supabase_tools.py lines 417-473): SELECT the user_settings row
by telegram_id; absent row gives None; then fetch the auth user by id and
build the combined dict (note it carries a name key and no first_name
key).  When the auth response carries no user the function falls through
and returns None; the exception fallback branch (auth transport error) is
outside the model. -/
def get_user_by_telegram_id_auth (w : World) (tid : String) : Option UserData :=
  match w.settings.find? (fun r => r.telegramId == some tid) with
  | none => none
  | some row =>
    match w.authUsers.find? (fun a => a.userId == row.userId) with
    | some au =>
      some { userId := some row.userId, email := au.email, name := au.metaName,
             firstName := none, lastName := none,
             currency := some row.currency, language := some row.language,
             timezone := some row.timezone, isPremium := row.isPremium,
             premiumUntil := row.premiumUntil,
             freemiumCredits := some row.freemiumCredits,
             telegramId := some tid, authenticated := true }
    | none => none

/-- _is_user_data_complete (src/api.py lines 750-753): the keys user_id,
email, first_name and authenticated are all truthy. -/
def is_user_data_complete (d : UserData) : Bool :=
  truthyStr d.userId && truthyStr d.email && truthyStr d.firstName && d.authenticated

/-- Python or on two strings: the first if non-empty, otherwise the
second. -/
def pyOrStr (a b : String) : String := if a = "" then b else a

/-- _validate_and_complete_user_data (src/api.py lines 725-747): when
some required field is falsy and user_id is truthy, rehydrate email,
first_name, last_name and authenticated from the auth store (once); a
failed auth fetch leaves the dict unchanged. -/
def validate_and_complete_user_data (authUsers : List AuthUser) (d : UserData) :
    UserData :=
  if truthyStr d.userId && truthyStr d.email && truthyStr d.firstName &&
      d.authenticated then d
  else if truthyStr d.userId then
    match authUsers.find? (fun a => a.userId == d.userId.getD "") with
    | some au =>
      { d with
        email := some (pyOrStr (au.email.getD "") (d.email.getD "")),
        firstName := some (match au.metaFirstName with
          | some v => v
          | none => d.firstName.getD "Unknown"),
        lastName := some (match au.metaLastName with
          | some v => v
          | none => d.lastName.getD ""),
        authenticated := true }
    | none => d
  else d

/-- check_authentication (src/api.py lines 615-691) for the request shape
every metered endpoint uses.  When no settings row is linked to the
telegram id: with a claimed supabase_user_id the source calls
link_telegram_user with three arguments while the function
(src/tools/supabase_tools.py line 135) takes two, so the call raises
TypeError and the outer handler returns the generic failure dict; with no
claimed id it returns the must_register dict.  When a row is linked and
authenticated, the data is completed and written into the session cache
before returning. -/
def check_authentication (w : World) (tid : String) (claimedId : Option String)
    (now : Int) : AuthResult × World :=
  match get_user_by_telegram_id_auth w tid with
  | none =>
    match claimedId with
    | some _ => (⟨false, false, none, false, some .authCheckFailed⟩, w)
    | none => (⟨false, false, none, true, some .userNotRegistered⟩, w)
  | some d =>
    if d.authenticated then
      let d1 := validate_and_complete_user_data w.authUsers d
      (⟨true, true, some d1, false, none⟩,
       { w with sessions := create_session w.sessions tid d1 now })
    else
      (⟨false, false, none, false, some .notAuthenticated⟩, w)

/-- Fallback payload for the unreachable arm in which check_authentication
reports authenticated without user data (Python would pass None along). -/
def noneUserData : UserData :=
  ⟨none, none, none, none, none, none, none, none, false, none, none, none, false⟩

/-- The re-authentication arm of get_user_data (src/api.py lines
703-717): run check_authentication (with no claimed id — the metered
endpoints build AuthCheckRequest from the telegram id alone) and either
return its user data or raise HTTPException 401 with its message. -/
def reauthenticate (w : World) (tid : String) (now : Int) :
    Except (Nat × ApiMsg) UserData × World :=
  let (ar, w1) := check_authentication w tid none now
  if ar.authenticated then
    match ar.userData with
    | some d => (.ok d, w1)
    | none => (.ok noneUserData, w1)
  else
    (.error (401, ar.message.getD .authFailedDefault), w1)

/-- get_user_data (src/api.py lines 694-722): if the session cache says
authenticated, fetch the session again and return it when its data is
complete; otherwise (stale, incomplete or absent session)
re-authenticate.  Both session reads refresh last_activity. -/
def get_user_data (w : World) (tid : String) (now : Int) :
    Except (Nat × ApiMsg) UserData × World :=
  let (authOk, sm1) := is_authenticated w.sessions tid now
  let w1 := { w with sessions := sm1 }
  if authOk then
    let (s1, sm2) := get_session w1.sessions tid now
    let w2 := { w1 with sessions := sm2 }
    match s1 with
    | some e =>
      if is_user_data_complete e.data then (.ok e.data, w2)
      else reauthenticate w2 tid now
    | none => reauthenticate w2 tid now
  else
    reauthenticate w1 tid now

/-- The dict check_and_consume_credits substitutes for an
insufficient_credits failure (src/api.py lines 771-783): success false
and a formatted message, with no further keys. -/
def insufficientWrappedResult : ConsumeResult :=
  ⟨false, none, none, none, none, none, none⟩

/-- check_and_consume_credits (src/api.py lines 756-785): call
consume_freemium_credits through SupabaseClient.consume_credits and
replace an insufficient_credits failure by the message dict; any other
result is passed through.  Emits the consume-attempt trace events. -/
def check_and_consume_credits (w : World) (uid : String) (opType : String)
    (creditsNeeded : Int) : ConsumeResult × World × List ApiEvent :=
  let (res, settings1) := consume_freemium_credits w.settings uid opType creditsNeeded
  let evs := [ApiEvent.creditConsumeAttempt uid creditsNeeded,
              if res.success then ApiEvent.creditConsumeSucceeded
              else ApiEvent.creditConsumeFailed]
  let w1 := { w with settings := settings1 }
  if res.success = false ∧ res.error = some ConsumeError.insufficientCredits then
    (insufficientWrappedResult, w1, evs)
  else
    (res, w1, evs)

/-- An agent call (MainAgent.route_message or
TransactionAgent.process_receipt_image): the Extractor LLM is invoked,
and when extraction succeeds a record is persisted.  The extraction
outcome is an oracle parameter. -/
def run_extractor_agent (w : World) (extractOk : Bool) : World × List ApiEvent :=
  (if extractOk then { w with persistCount := w.persistCount + 1 } else w,
   ApiEvent.extractorCall :: (if extractOk then [ApiEvent.persistWrite] else []))

/-- Outcome of one endpoint call: an HTTP 200 reply with a success flag,
or a raised HTTPException with its status code and message. -/
inductive RouteResult where
  | reply (success : Bool)
  | httpError (status : Nat) (msg : ApiMsg)
deriving DecidableEq

/-- route_message (src/api.py lines 285-323): get_user_data, then
check_and_consume_credits for 1 credit, then — only when the credit
result has success true — the main agent (Extractor); a credit failure
returns a success-false reply without invoking the agent; an
HTTPException from get_user_data is re-raised. -/
def route_message (w : World) (tid : String) (now : Int) (extractOk : Bool) :
    RouteResult × World × List ApiEvent :=
  match get_user_data w tid now with
  | (.error (code, m), w1) => (.httpError code m, w1, [])
  | (.ok d, w1) =>
    let (cr, w2, evC) := check_and_consume_credits w1 (d.userId.getD "")
      "text_message" 1
    if cr.success then
      let (w3, evE) := run_extractor_agent w2 extractOk
      (.reply true, w3, ApiEvent.resolveSucceeded :: (evC ++ evE))
    else
      (.reply false, w2, ApiEvent.resolveSucceeded :: evC)

/-- process_receipt (src/api.py lines 327-370): get_user_data, then
check_and_consume_credits for 5 credits, then the vision agent
(Extractor) — the source never tests the success flag of the credit
result before invoking it, unlike route_message. -/
def process_receipt (w : World) (tid : String) (now : Int) (extractOk : Bool) :
    RouteResult × World × List ApiEvent :=
  match get_user_data w tid now with
  | (.error (code, m), w1) => (.httpError code m, w1, [])
  | (.ok d, w1) =>
    let (_cr, w2, evC) := check_and_consume_credits w1 (d.userId.getD "")
      "receipt_processing" 5
    let (w3, evE) := run_extractor_agent w2 extractOk
    (.reply true, w3, ApiEvent.resolveSucceeded :: (evC ++ evE))

/-- A non-premium identity with 2 remaining credits, linked to telegram
id 100 (the insufficient-credits scenario of the spec). -/
def userA : UserSettings :=
  ⟨"u1", some "Ada Lovelace", "USD", "en", "UTC", false, some "100", none, 2, 200⟩

/-- An identity whose is_premium flag is still set although its
premium_until instant (10) is already past. -/
def expiredPremiumUser : UserSettings :=
  ⟨"p1", none, "USD", "en", "UTC", true, none, some 10, 0, 0⟩

/-- A lifetime premium identity: flag set, premium_until null. -/
def lifetimePremiumUser : UserSettings :=
  ⟨"p2", none, "USD", "en", "UTC", true, none, none, 0, 0⟩

/-- A non-premium identity with 0 credits whose reset date (day 99) lies
before the sweep date (day 100). -/
def staleUser : UserSettings :=
  ⟨"s1", none, "USD", "en", "UTC", false, none, none, 0, 99⟩

/-- A premium identity that a reset sweep must leave unchanged. -/
def premiumUserKeep : UserSettings :=
  ⟨"p3", none, "USD", "en", "UTC", true, none, some 500, 7, 0⟩

/-- Claim C1: for a non-premium identity known to the store,
consume_freemium_credits fails with insufficient_credits — reporting
credits_available and credits_needed and leaving the store unchanged —
exactly when current_credits < credits_needed; otherwise it succeeds,
decrements the stored balance by exactly credits_needed and returns
credits_remaining = current_credits - credits_needed; and credits_needed
= 0 always succeeds (the schema constraint freemium_credits >= 0 is the
hypothesis of that part). -/
theorem consume_nonpremium_spec (store : List UserSettings) (uid opType : String)
    (creditsNeeded : Int) (u : UserSettings)
    (hu : store.find? (fun v => v.userId == uid) = some u)
    (hp : u.isPremium = false) :
    (u.freemiumCredits < creditsNeeded →
      consume_freemium_credits store uid opType creditsNeeded =
        (insufficientCreditsResult u.freemiumCredits creditsNeeded, store)) ∧
    (creditsNeeded ≤ u.freemiumCredits →
      consume_freemium_credits store uid opType creditsNeeded =
        (consumedResult creditsNeeded (u.freemiumCredits - creditsNeeded),
         store.map fun v =>
           if v.userId == uid then
             { v with freemiumCredits := u.freemiumCredits - creditsNeeded }
           else v)) ∧
    (0 ≤ u.freemiumCredits →
      (consume_freemium_credits store uid opType 0).1.success = true) := by
  refine ⟨fun h => ?_, fun h => ?_, fun h => ?_⟩
  · simp [consume_freemium_credits, hu, hp, h]
  · simp [consume_freemium_credits, hu, hp, not_lt.mpr h]
  · simp [consume_freemium_credits, hu, hp, not_lt.mpr h, consumedResult]

/-- Closed instance of consume_nonpremium_spec: the identity with 2
credits and credits_needed 5 fails with insufficient_credits reporting
available 2 and needed 5. -/
theorem consume_nonpremium_spec_witness :
    ([userA].find? (fun v => v.userId == "u1") = some userA) ∧
    userA.isPremium = false ∧
    consume_freemium_credits [userA] "u1" "text_message" 5 =
      (insufficientCreditsResult 2 5, [userA]) :=
  ⟨rfl, rfl,
    (consume_nonpremium_spec [userA] "u1" "text_message" 5 userA rfl rfl).1
      (by decide)⟩

/-- Claim C2 counterexample: expiredPremiumUser is not premium-active at
now = 100 under the section-3 rule of the spec (premium_until = 10 is
past), yet consume_freemium_credits still grants the full premium bypass
and deducts nothing — the SQL function reads only the is_premium flag and
never looks at premium_until, so the bypass is not restricted to
identities satisfying the premium-active rule. -/
theorem consume_premium_expired_bypass_cex :
    premiumActiveSpec expiredPremiumUser 100 = false ∧
    consume_freemium_credits [expiredPremiumUser] "p1" "text_message" 3 =
      (premiumBypassResult, [expiredPremiumUser]) :=
  ⟨rfl, rfl⟩

/-- Claim C2 (amended): consume_freemium_credits grants the bypass
(success, is_premium true, credits_used 0, credits_remaining -1, no
deduction) to exactly the identities whose stored is_premium flag is
true, regardless of premium_until and of credits_needed; the
premium-active rule of the spec is enforced only by the separate
check_expired_premium maintenance function, which clears the flag of
expired subscriptions. -/
theorem consume_premium_flag_spec (store : List UserSettings) (uid opType : String)
    (creditsNeeded : Int) (u : UserSettings)
    (hu : store.find? (fun v => v.userId == uid) = some u) :
    (u.isPremium = true →
      consume_freemium_credits store uid opType creditsNeeded =
        (premiumBypassResult, store)) ∧
    ((consume_freemium_credits store uid opType creditsNeeded).1.isPremium =
        some true → u.isPremium = true) := by
  constructor
  · intro h
    simp [consume_freemium_credits, hu, h]
  · intro h
    cases hp : u.isPremium
    case true => rfl
    case false =>
      exfalso
      by_cases hlt : u.freemiumCredits < creditsNeeded
      · simp [consume_freemium_credits, hu, hp, hlt, insufficientCreditsResult] at h
      · simp [consume_freemium_credits, hu, hp, hlt, consumedResult] at h

/-- Closed instance of consume_premium_flag_spec: the lifetime premium
identity receives the bypass even for credits_needed = 999, far above its
stored balance of 0. -/
theorem consume_premium_flag_spec_witness :
    ([lifetimePremiumUser].find? (fun v => v.userId == "p2") =
      some lifetimePremiumUser) ∧
    consume_freemium_credits [lifetimePremiumUser] "p2" "text_message" 999 =
      (premiumBypassResult, [lifetimePremiumUser]) :=
  ⟨rfl,
    (consume_premium_flag_spec [lifetimePremiumUser] "p2" "text_message" 999
      lifetimePremiumUser rfl).1 rfl⟩

/-- Claim C4 counterexample: the eligible identity (non-premium, reset
date 99 past the sweep date 100, 0 credits) ends the sweep with 20
credits, but 20 is not the configured default allotment — the schema
default of the freemium_credits column is 50, so the sweep does not
restore the default allotment. -/
theorem reset_monthly_credits_allotment_cex :
    reset_monthly_credits [staleUser] 100 =
      [{ staleUser with freemiumCredits := 20, creditsResetDate := 130 }] ∧
    (20 : Int) ≠ defaultFreemiumCredits :=
  ⟨rfl, by decide⟩

/-- Claim C4 (amended): one run of reset_monthly_credits sets every
non-premium row whose credits_reset_date is strictly before the sweep
date to 20 credits (the constant hard-coded in the SQL function, not the
schema new-row default of 50) with credits_reset_date advanced to the
sweep date plus 30 days; every other row is unchanged; and a second run
at the same date changes nothing (idempotence). -/
theorem reset_monthly_credits_spec (store : List UserSettings) (d : Int) :
    (reset_monthly_credits store d).length = store.length ∧
    (∀ i (h1 : i < store.length)
        (h2 : i < (reset_monthly_credits store d).length),
      ((store.get ⟨i, h1⟩).isPremium = false →
        (store.get ⟨i, h1⟩).creditsResetDate < d →
        (reset_monthly_credits store d).get ⟨i, h2⟩ =
          { store.get ⟨i, h1⟩ with
              freemiumCredits := 20, creditsResetDate := d + 30 }) ∧
      ((store.get ⟨i, h1⟩).isPremium = true ∨
          ¬ (store.get ⟨i, h1⟩).creditsResetDate < d →
        (reset_monthly_credits store d).get ⟨i, h2⟩ = store.get ⟨i, h1⟩)) ∧
    reset_monthly_credits (reset_monthly_credits store d) d =
      reset_monthly_credits store d := by
  refine ⟨by simp [reset_monthly_credits], fun i h1 h2 => ?_, ?_⟩
  · simp only [List.get_eq_getElem]
    constructor
    · intro hp hd
      simp [reset_monthly_credits, List.getElem_map, hp, hd]
    · intro hor
      rcases hor with hp | hd
      · simp [reset_monthly_credits, List.getElem_map, hp]
      · simp [reset_monthly_credits, List.getElem_map, hd]
  · simp only [reset_monthly_credits, List.map_map]
    refine List.map_congr_left (fun u _ => ?_)
    by_cases hc : u.isPremium = false ∧ u.creditsResetDate < d
    · have hno : ¬ (d + 30 < d) := by omega
      simp [Function.comp, hc, hno]
    · simp [Function.comp, hc]

/-- Closed instance of reset_monthly_credits_spec: in a two-row store the
eligible row is reset to 20 credits with reset date 130, and the premium
row is untouched. -/
theorem reset_monthly_credits_spec_witness :
    (reset_monthly_credits [staleUser, premiumUserKeep] 100).get
        ⟨0, by simp [reset_monthly_credits]⟩ =
      { staleUser with freemiumCredits := 20, creditsResetDate := 130 } ∧
    (reset_monthly_credits [staleUser, premiumUserKeep] 100).get
        ⟨1, by simp [reset_monthly_credits]⟩ = premiumUserKeep :=
  ⟨((reset_monthly_credits_spec [staleUser, premiumUserKeep] 100).2.1 0
      (by decide) (by simp [reset_monthly_credits])).1 rfl (by decide),
   ((reset_monthly_credits_spec [staleUser, premiumUserKeep] 100).2.1 1
      (by decide) (by simp [reset_monthly_credits])).2 (Or.inl rfl)⟩

/-- A complete, authenticated user-data dictionary as create_session
stores it after a successful resolution. -/
def completeUserData : UserData :=
  ⟨some "u1", some "user@example.com", some "Ada Lovelace", some "Ada",
   some "Lovelace", some "USD", some "en", some "UTC", false, none, some 2,
   some "100", true⟩

/-- A session entry whose last activity is instant 0. -/
def entryStale : SessionEntry := ⟨completeUserData, 0⟩

/-- A session cache holding only the entry for channel 42, with a
30-minute timeout. -/
def sessionM0 : SessionManager :=
  ⟨fun t => if t = "42" then some entryStale else none, 30⟩

/-- Claim C5: for any cache state holding an entry for the channel,
get_session returns absent and removes exactly that entry as soon as
now - last_activity exceeds the timeout (lazy eviction, no sweep
involved); and when the entry is not expired it returns the cached data
with last_activity refreshed to now, storing the refreshed entry back. -/
theorem get_session_expiry_spec (m : SessionManager) (tid : String) (now : Int)
    (e : SessionEntry) (he : m.sessions tid = some e) :
    (m.sessionTimeout < now - e.lastActivity →
      (get_session m tid now).1 = none ∧
      ((get_session m tid now).2).sessions tid = none ∧
      ∀ t, t ≠ tid → ((get_session m tid now).2).sessions t = m.sessions t) ∧
    (¬ m.sessionTimeout < now - e.lastActivity →
      (get_session m tid now).1 = some ⟨e.data, now⟩ ∧
      ((get_session m tid now).2).sessions tid = some ⟨e.data, now⟩ ∧
      ∀ t, t ≠ tid → ((get_session m tid now).2).sessions t = m.sessions t) := by
  constructor <;> intro h <;>
    exact ⟨by simp [get_session, he, h], by simp [get_session, he, h],
      fun t ht => by simp [get_session, he, h, ht]⟩

/-- Closed instance of get_session_expiry_spec: with a 30-minute timeout,
an entry last active at instant 0 is gone at instant 100 even though no
cleanup sweep ran, and the non-expired read at instant 20 returns it with
last_activity refreshed. -/
theorem get_session_expiry_spec_witness :
    sessionM0.sessions "42" = some entryStale ∧
    (get_session sessionM0 "42" 100).1 = none ∧
    (get_session sessionM0 "42" 20).1 = some ⟨entryStale.data, 20⟩ :=
  ⟨rfl,
   ((get_session_expiry_spec sessionM0 "42" 100 entryStale rfl).1 (by decide)).1,
   ((get_session_expiry_spec sessionM0 "42" 20 entryStale rfl).2 (by decide)).1⟩

/-- Claim C10: create_session always stores the entry with the
authenticated flag forced to true (the dict literal writes it after the
supplied user_data, so it overwrites any supplied value), every cache
operation preserves the all-entries-authenticated invariant, and under
that invariant is_authenticated coincides with the existence of a
non-expired entry — the authenticated conjunct can never be the deciding
condition. -/
theorem session_authenticated_invariant_spec (m : SessionManager) (tid : String)
    (d : UserData) (now : Int) :
    ((create_session m tid d now).sessions tid =
      some ⟨{ d with authenticated := true }, now⟩) ∧
    (AllAuthenticated m → AllAuthenticated (create_session m tid d now)) ∧
    (AllAuthenticated m → AllAuthenticated (get_session m tid now).2) ∧
    (AllAuthenticated m → AllAuthenticated (invalidate_session m tid)) ∧
    (AllAuthenticated m → (is_authenticated m tid now).1 =
      ((get_session m tid now).1).isSome) := by
  refine ⟨by simp [create_session], ?_, ?_, ?_, ?_⟩
  · intro inv t e ht
    simp only [create_session] at ht
    split at ht
    · cases ht; rfl
    · exact inv t e ht
  · intro inv t e ht
    cases hm : m.sessions tid with
    | none =>
      simp only [get_session, hm] at ht
      exact inv t e ht
    | some e0 =>
      by_cases hexp : m.sessionTimeout < now - e0.lastActivity
      · simp only [get_session, hm, if_pos hexp] at ht
        split at ht
        · cases ht
        · exact inv t e ht
      · simp only [get_session, hm, if_neg hexp] at ht
        split at ht
        · cases ht
          exact inv tid e0 hm
        · exact inv t e ht
  · intro inv t e ht
    simp only [invalidate_session] at ht
    split at ht
    · cases ht
    · exact inv t e ht
  · intro inv
    cases hm : m.sessions tid with
    | none => simp [is_authenticated, get_session, hm]
    | some e0 =>
      by_cases hexp : m.sessionTimeout < now - e0.lastActivity
      · simp [is_authenticated, get_session, hm, hexp]
      · have hauth := inv tid e0 hm
        simp [is_authenticated, get_session, hm, hexp, hauth]

/-- Closed instance of session_authenticated_invariant_spec: on sessionM0
(whose single entry was produced by the create_session discipline),
is_authenticated at instant 20 agrees with entry existence. -/
theorem session_authenticated_invariant_spec_witness :
    (is_authenticated sessionM0 "42" 20).1 =
      ((get_session sessionM0 "42" 20).1).isSome :=
  (session_authenticated_invariant_spec sessionM0 "42" completeUserData 20).2.2.2.2
    (fun t e ht => by
      simp only [sessionM0] at ht
      split at ht
      · cases ht; rfl
      · cases ht)

/-- Claim C6: on the strict ISO-8601 UTC string the parser returns
exactly that UTC instant (offset 0), for every reference instant now; the
source function _parse_due_date takes no timezone parameter at all, so
independence from the timezone is immediate, and the ISO branch returns
before consulting now. -/
theorem parse_due_date_iso_utc_spec (now : PyDateTime) :
    parse_due_date "2025-09-18T15:00:00Z" now =
      .ok (some ⟨2025, 9, 18, 15, 0, 0, some 0⟩) := rfl

/-- Claim C7 counterexample: with the server clock reading the naive
local datetime 2025-01-10 08:00 (the wall time of the reference instant
2025-01-10T08:00:00-03:00), the candidate tomorrow at 3pm parses to the
naive local datetime 2025-01-11 15:00 with no timezone, not to the UTC
instant 2025-01-11T18:00:00Z that the claim requires: the source performs
no local-to-UTC conversion and receives no user timezone. -/
theorem parse_due_date_tomorrow_cex :
    parse_due_date "tomorrow at 3pm" ⟨2025, 1, 10, 8, 0, 0, none⟩ =
      .ok (some ⟨2025, 1, 11, 15, 0, 0, none⟩) ∧
    (⟨2025, 1, 11, 15, 0, 0, none⟩ : PyDateTime) ≠
      ⟨2025, 1, 11, 18, 0, 0, some 0⟩ :=
  ⟨rfl, by decide⟩

/-- Claim C7 (amended): when the candidate is not ISO-8601,
_parse_due_date anchors the relative keywords at datetime.now() — the
naive server-local clock; the function receives no user timezone and no
reference instant — with today as the current date, tomorrow +1 day, next
week +7 days, next month +30 days; it applies the optional 12-hour clock
time (default 09:00) and returns the resulting naive local wall-clock
datetime without converting to UTC. -/
theorem parse_due_date_relative_spec (now : PyDateTime) :
    parse_due_date "tomorrow at 3pm" now =
      .ok (some (combineAt (addDays (dateOf now) 1) 15 0)) ∧
    parse_due_date "tomorrow" now =
      .ok (some (combineAt (addDays (dateOf now) 1) 9 0)) ∧
    parse_due_date "today" now = .ok (some (combineAt (dateOf now) 9 0)) ∧
    parse_due_date "next week" now =
      .ok (some (combineAt (addDays (dateOf now) 7) 9 0)) ∧
    parse_due_date "next month" now =
      .ok (some (combineAt (addDays (dateOf now) 30) 9 0)) ∧
    parse_due_date "do the taxes" now =
      .ok (some (combineAt (dateOf now) 9 0)) :=
  ⟨rfl, rfl, rfl, rfl, rfl, rfl⟩

/-- A state with no identities, no auth records and an empty session
cache. -/
def emptyWorld : World := ⟨[], [], ⟨fun _ => none, 30⟩, 0⟩

/-- The Supabase Auth record backing userA. -/
def authUserA : AuthUser :=
  ⟨"u1", some "user@example.com", some "Ada Lovelace", some "Ada", some "Lovelace"⟩

/-- Request state for the insufficient-credits scenario: the non-premium
identity with 2 credits, its auth record, and a fresh complete session
for channel 100. -/
def worldLowCredits : World :=
  ⟨[userA], [authUserA],
   ⟨fun t => if t = "100" then some ⟨completeUserData, 0⟩ else none, 30⟩, 0⟩

/-- Claim C8 (code bug): for the authenticated non-premium caller with 2
credits, process_receipt attempts to consume 5 credits, the consume fails
with insufficient_credits — yet the vision Extractor is still invoked and
the extracted record persisted, because src/api.py lines 338-347 never
test the success flag of the credit result (route_message does, at line
303).  The trace shows the failed consume followed by the extractor
call. -/
theorem process_receipt_extractor_despite_credit_failure :
    (process_receipt worldLowCredits "100" 0 true).2.2 =
      [ApiEvent.resolveSucceeded, ApiEvent.creditConsumeAttempt "u1" 5,
       ApiEvent.creditConsumeFailed, ApiEvent.extractorCall,
       ApiEvent.persistWrite] ∧
    (process_receipt worldLowCredits "100" 0 true).1 = RouteResult.reply true ∧
    (consume_freemium_credits worldLowCredits.settings "u1"
        "receipt_processing" 5).1 = insufficientCreditsResult 2 5 :=
  ⟨rfl, rfl, rfl⟩

/-- Claim C9: for a channel id with no session entry and no user_settings
row linked to it (and route_message supplies no claimed persistent id),
route_message raises the 401 must_register outcome, the state is
completely unchanged — in particular no credit was consumed and nothing
was persisted — and the trace is empty: no consume attempt, no extractor
call, no write. -/
theorem route_message_unknown_channel_spec (w : World) (tid : String) (now : Int)
    (extractOk : Bool)
    (hs : w.sessions.sessions tid = none)
    (hr : w.settings.find? (fun r => r.telegramId == some tid) = none) :
    route_message w tid now extractOk =
      (RouteResult.httpError 401 ApiMsg.userNotRegistered, w, []) := by
  simp [route_message, get_user_data, is_authenticated, get_session, hs,
        reauthenticate, check_authentication, get_user_by_telegram_id_auth, hr]

/-- Closed instance of route_message_unknown_channel_spec on the empty
state. -/
theorem route_message_unknown_channel_spec_witness :
    emptyWorld.sessions.sessions "7" = none ∧
    emptyWorld.settings.find? (fun r => r.telegramId == some "7") = none ∧
    route_message emptyWorld "7" 0 true =
      (RouteResult.httpError 401 ApiMsg.userNotRegistered, emptyWorld, []) :=
  ⟨rfl, rfl, route_message_unknown_channel_spec emptyWorld "7" 0 true rfl rfl⟩
